import Mathlib

/-!
Shallow embedding of the ScreenControl tray bridge
(`src/linux/ScreenControlTray/screencontrol_tray.py`): the capture adapter
(`ScreenController.take_screenshot`), the input adapter (`click`,
`double_click`, `get_mouse_position`), the HTTP bridge handler
(`_read_json`, `do_POST` for `/click`, `do_GET` for `/mouse/position`),
the server construction (`GUIBridgeServer.start`) and the liveness poll
(`ScreenControlTray.update_status`).

External effects (subprocess exit codes, the PIL decode of the temporary
capture file, the HTTP poll outcome) are passed in as explicit environment
values; the functions return the observable trace (backend commands issued,
whether the temporary file was removed, the HTTP response) so the theorems
can speak about every path of the Python control flow.
-/

set_option autoImplicit false

/-- Python `str.lower()` on the ASCII strings the bridge handles:
lower-case every character. -/
def pyLower (s : String) : String :=
  String.mk (s.data.map Char.toLower)

/-- Splitting helper: cut a character list at every character satisfying
`p`, keeping empty fragments (as Python `str.split(sep)` does). `acc`
holds the current fragment, reversed. -/
def splitWhenAux (p : Char → Bool) : List Char → List Char → List String
  | [], acc => [String.mk acc.reverse]
  | c :: cs, acc =>
    if p c then String.mk acc.reverse :: splitWhenAux p cs []
    else splitWhenAux p cs (c :: acc)

/-- Python `str.split(sep)` for a one-character separator: empty
fragments are kept. -/
def pySplitOn (sep : Char) (s : String) : List String :=
  splitWhenAux (fun c => c = sep) s.data []

/-- Python `str.split()` with no argument: split on whitespace runs and
drop empty fragments (which also subsumes the preceding `str.strip()`). -/
def pySplit (s : String) : List String :=
  (splitWhenAux Char.isWhitespace s.data []).filter (fun t => ¬t.data.isEmpty)

/-- Accumulate decimal digits; a non-digit character fails. -/
def natOfDigits (cs : List Char) : Option Nat :=
  cs.foldl
    (fun acc c =>
      acc.bind (fun n => if c.isDigit then some (10 * n + (c.toNat - 48)) else none))
    (some 0)

/-- Python `int(s)` on the plain decimal forms the bridge sees: an
optional minus sign followed by at least one digit; anything else raises
(`none`). -/
def pyIntOfString (s : String) : Option Int :=
  match s.data with
  | [] => none
  | '-' :: rest =>
    if rest.isEmpty then none else (natOfDigits rest).map (fun n => -(n : Int))
  | cs => (natOfDigits cs).map (fun n => (n : Int))

/-- PIL image modes relevant to PNG decoding: `RGB`, `RGBA` (colour with
alpha), `L` (grayscale), `LA` (grayscale with alpha), `P` (palette). -/
inductive ImageMode where
  | RGB
  | RGBA
  | L
  | LA
  | P
  deriving DecidableEq, Repr

/-- Channel count of a PIL mode (RGB has 3, RGBA 4, L 1, LA 2, P 1). -/
def ImageMode.channels : ImageMode → Nat
  | .RGB => 3
  | .RGBA => 4
  | .L => 1
  | .LA => 2
  | .P => 1

/-- Whether a PIL mode carries an alpha channel (`RGBA` and `LA` do). -/
def ImageMode.hasAlpha : ImageMode → Bool
  | .RGBA => true
  | .LA => true
  | _ => false

/-- A decoded PIL image: its mode and pixel dimensions. -/
structure Image where
  mode : ImageMode
  width : Nat
  height : Nat
  deriving DecidableEq, Repr

/-- Re-encoded image bytes, represented symbolically by the encoder
invocation that produced them: both PIL encoders are deterministic, so two
invocations with the same arguments yield the same bytes. -/
inductive Encoded where
  | jpeg (img : Image) (quality : Nat)
  | png (img : Image)
  deriving DecidableEq, Repr

/-- Channel count of the image stored in the encoded bytes. -/
def Encoded.channels : Encoded → Nat
  | .jpeg img _ => img.mode.channels
  | .png img => img.mode.channels

/-- PIL `img.save(..., format='JPEG', quality=q)`: the JPEG encoder accepts
modes `L` and `RGB` and raises `OSError("cannot write mode ... as JPEG")`
for modes with alpha or palette (`RGBA`, `LA`, `P`). -/
def saveJPEG (img : Image) (quality : Nat) : Except String Encoded :=
  match img.mode with
  | .RGB => Except.ok (Encoded.jpeg img quality)
  | .L => Except.ok (Encoded.jpeg img quality)
  | _ => Except.error "cannot write mode as JPEG"

/-- External capture backends shelled out to by `take_screenshot`. -/
inductive Backend where
  | grim
  | gnomeScreenshot
  | scrot
  deriving DecidableEq, Repr

/-- Environment of one `take_screenshot` call: the `XDG_SESSION_TYPE`
value (the empty string models an unset variable), the exit code each
backend would return if run, and the result of `PIL.Image.open` on the
temporary file (`none` models a decode exception). -/
structure CaptureEnv where
  sessionType : String
  grimExit : Nat
  gnomeExit : Nat
  scrotExit : Nat
  decodeResult : Option Image
  deriving DecidableEq, Repr

/-- Observable outcome of one `take_screenshot` call: which backends were
invoked in order, whether the temporary capture file is absent when the
call returns (`os.unlink` reached), and the returned bytes or the raised
error. -/
structure ShotResult where
  backendsRun : List Backend
  tmpFileAbsent : Bool
  result : Except String Encoded
  deriving Repr

/-- Decode-and-re-encode tail of `take_screenshot` (lines 112-127 of the
source): `Image.open(tmp_path)`, conversion per the requested format
(`format.lower() == 'jpeg'` converts `RGBA` to `RGB` then saves as JPEG at
the requested quality, anything else saves as PNG), then `os.unlink`.
An exception anywhere leaves the temporary file on disk, because the
`os.unlink` call is only reached on the success path. -/
def decodeAndEncode (env : CaptureEnv) (backends : List Backend)
    (format : String) (quality : Nat) : ShotResult :=
  match env.decodeResult with
  | none => ⟨backends, false, Except.error "decode failed"⟩
  | some img =>
    let enc : Except String Encoded :=
      if pyLower format = "jpeg" then
        saveJPEG (if img.mode = ImageMode.RGBA then { img with mode := ImageMode.RGB } else img)
          quality
      else
        Except.ok (Encoded.png img)
    match enc with
    | Except.error e => ⟨backends, false, Except.error e⟩
    | Except.ok bytes => ⟨backends, true, Except.ok bytes⟩

/-- Source `ScreenController.take_screenshot(format, quality)`: creates a
temporary `.png` file, then if `XDG_SESSION_TYPE == 'wayland'` runs `grim`
and, exactly when grim exits non-zero, runs `gnome-screenshot` (whose exit
code is not checked); otherwise runs `scrot -o` with `check=True`, so a
non-zero scrot exit raises `CalledProcessError`, which the handler logs and
re-raises (the temporary file is not removed on that path). The surviving
paths continue with `decodeAndEncode`. -/
def ScreenController.take_screenshot (env : CaptureEnv) (format : String)
    (quality : Nat) : ShotResult :=
  if env.sessionType = "wayland" then
    let backends :=
      if env.grimExit ≠ 0 then [Backend.grim, Backend.gnomeScreenshot] else [Backend.grim]
    decodeAndEncode env backends format quality
  else
    if env.scrotExit ≠ 0 then
      ⟨[Backend.scrot], false, Except.error "scrot failed"⟩
    else
      decodeAndEncode env [Backend.scrot] format quality

/-- JSON values as decoded by Python's `json.loads` (number payloads are
restricted to the integers the bridge actually consumes). -/
inductive Json where
  | null
  | bool (b : Bool)
  | num (n : Int)
  | str (s : String)
  | arr (elems : List Json)
  | obj (fields : List (String × Json))

/-- Python `int(x)` applied to a JSON value, as in the `str(int(x))`
argument building of the input adapter: integers pass through, booleans
coerce to 0/1, decimal strings parse, anything else raises (`none`). -/
def pyInt : Json → Option Int
  | .num n => some n
  | .bool b => some (if b then 1 else 0)
  | .str s => pyIntOfString s
  | _ => none

/-- One `xdotool` invocation issued by the input adapter. -/
inductive XdoCmd where
  | mousemove (x y : Int)
  | click (button : String)
  | clickRepeat (count : Nat) (button : String)
  deriving DecidableEq, Repr

/-- Exit codes the `xdotool` subprocesses would return: the `mousemove`
call and the `click` call (`subprocess.run(..., check=True)` raises on a
non-zero exit, aborting the operation). -/
structure InputEnv where
  moveExit : Nat
  clickExit : Nat
  deriving DecidableEq, Repr

/-- Whether a decoded JSON value is hashable in Python (lists and dicts
are not; `dict.get` raises `TypeError` on them). -/
def pyHashable : Json → Bool
  | .arr _ => false
  | .obj _ => false
  | _ => true

/-- Button-name dictionary of `ScreenController.click`:
`{'left': '1', 'right': '3', 'middle': '2'}.get(button, '1')` — any other
hashable value, string or not, falls back to `'1'`. -/
def buttonIndex : Json → String
  | Json.str s =>
    if s = "left" then "1"
    else if s = "right" then "3"
    else if s = "middle" then "2"
    else "1"
  | _ => "1"

/-- Source `ScreenController.click(x, y, button)`: resolve the button index via
the dictionary lookup (a `TypeError` on an unhashable value aborts before
any command runs), warp the pointer with `xdotool mousemove`, then issue
`xdotool click` with the mapped index; returns the commands issued and
the boolean outcome. A failed `int()` conversion or a non-zero exit is
caught and reported as `false`. -/
def ScreenController.click (env : InputEnv) (x y button : Json) :
    List XdoCmd × Bool :=
  if ¬pyHashable button then ([], false)
  else
    match pyInt x, pyInt y with
    | some xi, some yi =>
      if env.moveExit ≠ 0 then ([XdoCmd.mousemove xi yi], false)
      else if env.clickExit ≠ 0 then
        ([XdoCmd.mousemove xi yi, XdoCmd.click (buttonIndex button)], false)
      else
        ([XdoCmd.mousemove xi yi, XdoCmd.click (buttonIndex button)], true)
    | _, _ => ([], false)

/-- Source `ScreenController.double_click(x, y)`: one `xdotool mousemove` warp,
then one `xdotool click --repeat 2 1` — a single backend click command with
repeat count 2 on button 1, not two separate click invocations. -/
def ScreenController.double_click (env : InputEnv) (x y : Json) :
    List XdoCmd × Bool :=
  match pyInt x, pyInt y with
  | some xi, some yi =>
    if env.moveExit ≠ 0 then ([XdoCmd.mousemove xi yi], false)
    else if env.clickExit ≠ 0 then
      ([XdoCmd.mousemove xi yi, XdoCmd.clickRepeat 2 "1"], false)
    else
      ([XdoCmd.mousemove xi yi, XdoCmd.clickRepeat 2 "1"], true)
  | _, _ => ([], false)

/-- Whether an `xdotool` command is a pointer warp. -/
def isWarp : XdoCmd → Bool
  | XdoCmd.mousemove _ _ => true
  | _ => false

/-- Outcome of the `xdotool getmouselocation` subprocess: its stdout on a
zero exit, or `failure` for a non-zero exit / missing binary (both raise
inside the `try` block). -/
inductive XdoQuery where
  | ok (stdout : String)
  | failure

/-- Python `int(part.split(':')[1])`: take the piece after the first colon and
parse it as an integer; a missing piece (IndexError) or a non-numeric
piece (ValueError) raises, modelled as `none`. -/
def parseCoord (part : String) : Option Int :=
  match (pySplitOn ':' part)[1]? with
  | some v => pyIntOfString v
  | none => none

/-- Source `ScreenController.get_mouse_position()`: parse
`"x:123 y:456 screen:0 window:..."` from `xdotool getmouselocation`; every
exception (subprocess failure, too few fields, parse failure) is caught
and `{'x': 0, 'y': 0}` returned instead. -/
def ScreenController.get_mouse_position (q : XdoQuery) : Int × Int :=
  match q with
  | XdoQuery.failure => (0, 0)
  | XdoQuery.ok out =>
    let parts := pySplit out
    match parts[0]?, parts[1]? with
    | some p0, some p1 =>
      match parseCoord p0, parseCoord p1 with
      | some x, some y => (x, y)
      | _, _ => (0, 0)
    | _, _ => (0, 0)

/-- An HTTP response written by the bridge handler: status code and JSON
body. -/
structure HttpResponse where
  status : Nat
  body : Json

/-- Source `GUIBridgeHandler._read_json`: read `Content-Length` (defaulting to 0
when the header is absent); when it is non-zero, parse the body with
`json.loads` (a parse error raises, caught by the route handler as a 500);
when it is zero — an empty body — return the empty dict `{}`. The `parsed`
argument is what `json.loads` would yield, `none` for malformed JSON. -/
def read_json (contentLength : Nat) (parsed : Option Json) :
    Except String Json :=
  if contentLength ≠ 0 then
    match parsed with
    | some j => Except.ok j
    | none => Except.error "json decode error"
  else
    Except.ok (Json.obj [])

/-- The `/click` branch of `GUIBridgeHandler.do_POST`: read the JSON body,
default `x` and `y` to `0` and `button` to `'left'` via `dict.get`,
dispatch `ScreenController.click`, and answer 200 with
`{'success': <bool>}`. Any exception (malformed JSON, body not a dict) is
caught and answered with a 500 `{'error': ...}` body. Returns the response
and the `xdotool` commands the dispatched click issued. -/
def do_POST_click (env : InputEnv) (contentLength : Nat)
    (parsed : Option Json) : HttpResponse × List XdoCmd :=
  match read_json contentLength parsed with
  | Except.error e => (⟨500, Json.obj [("error", Json.str e)]⟩, [])
  | Except.ok (Json.obj fields) =>
    let x := (List.lookup "x" fields).getD (Json.num 0)
    let y := (List.lookup "y" fields).getD (Json.num 0)
    let button := (List.lookup "button" fields).getD (Json.str "left")
    let r := ScreenController.click env x y button
    (⟨200, Json.obj [("success", Json.bool r.2)]⟩, r.1)
  | Except.ok _ =>
    (⟨500, Json.obj [("error", Json.str "AttributeError")]⟩, [])

/-- The `/mouse/position` branch of `GUIBridgeHandler.do_GET`:
`get_mouse_position` never raises (it swallows backend failures and
returns the origin), so the handler always answers 200 with
`{'success': True, 'x': ..., 'y': ...}`. -/
def do_GET_mouse_position (q : XdoQuery) : HttpResponse :=
  let pos := ScreenController.get_mouse_position q
  ⟨200, Json.obj [("success", Json.bool true),
                  ("x", Json.num pos.1), ("y", Json.num pos.2)]⟩

/-- The two `http.server` server classes the bridge could have used. -/
inductive ServerClass where
  | HTTPServer
  | ThreadingHTTPServer
  deriving DecidableEq, Repr

/-- Python stdlib semantics: `socketserver.BaseServer.serve_forever`
handles one request at a time; only the `ThreadingMixIn` variant
(`ThreadingHTTPServer`) spawns a worker thread per inbound request. -/
def ServerClass.perRequestWorker : ServerClass → Bool
  | .HTTPServer => false
  | .ThreadingHTTPServer => true

/-- Fixed bridge port (constant `GUI_BRIDGE_PORT = 3460`). -/
def GUI_BRIDGE_PORT : Nat := 3460

/-- How `GUIBridgeServer.start` builds and runs the server. -/
structure ServerConfig where
  host : String
  port : Nat
  serverClass : ServerClass
  daemonThread : Bool
  deriving DecidableEq, Repr

/-- Source `GUIBridgeServer.start`:
`HTTPServer(('127.0.0.1', self.port), GUIBridgeHandler)` served by a
single background daemon thread running `serve_forever`. -/
def GUIBridgeServer.start_config : ServerConfig :=
  { host := "127.0.0.1"
    port := GUI_BRIDGE_PORT
    serverClass := ServerClass.HTTPServer
    daemonThread := true }

/-- Outcome of one liveness poll of
`http://127.0.0.1:3459/health`: a response with some status code, or an
exception from `requests.get` (connection refused, timeout, ...). -/
inductive PollOutcome where
  | response (statusCode : Nat)
  | connectionFailure
  deriving DecidableEq, Repr

/-- Status state the poll leaves behind: the `self.connected` flag and the
menu label queued via `GLib.idle_add`. -/
structure TrayStatus where
  connected : Bool
  statusLabel : String
  deriving DecidableEq, Repr

/-- Source `ScreenControlTray.update_status`: one poll of the control service's
health endpoint. A 200 response sets connected; any other status code
clears it; any exception is swallowed by the bare `except` and also clears
it. The function always returns `True` (the second component) so GLib
keeps the timer scheduled — no exception escapes the poll loop. -/
def update_status (outcome : PollOutcome) : TrayStatus × Bool :=
  match outcome with
  | PollOutcome.response code =>
    if code = 200 then ({ connected := true, statusLabel := "Status: Connected" }, true)
    else ({ connected := false, statusLabel := "Status: Disconnected" }, true)
  | PollOutcome.connectionFailure =>
    ({ connected := false, statusLabel := "Status: Service not running" }, true)

/-- Whether an `Except` result is a success. -/
def exceptIsOk {ε α : Type} : Except ε α → Bool
  | Except.ok _ => true
  | Except.error _ => false

/-- Concrete X11-session capture environment whose temporary file fails to
decode (`PIL.Image.open` raises). -/
def envDecodeFail : CaptureEnv :=
  { sessionType := "x11", grimExit := 0, gnomeExit := 0, scrotExit := 0
    decodeResult := none }

/-- A 100x100 RGBA image, as a wayland-compositor screenshot decodes. -/
def imgRGBA : Image := { mode := ImageMode.RGBA, width := 100, height := 100 }

/-- A 100x100 grayscale-plus-alpha image: it carries an alpha channel but
its PIL mode is `LA`, not `RGBA`. -/
def imgLA : Image := { mode := ImageMode.LA, width := 100, height := 100 }

/-- Concrete X11-session capture environment that decodes to `imgLA`. -/
def envLA : CaptureEnv :=
  { sessionType := "x11", grimExit := 0, gnomeExit := 0, scrotExit := 0
    decodeResult := some imgLA }

/-- Concrete wayland-session capture environment where `grim` fails with
exit code 1 and the capture decodes to `imgRGBA`. -/
def envWaylandGrimFails : CaptureEnv :=
  { sessionType := "wayland", grimExit := 1, gnomeExit := 0, scrotExit := 0
    decodeResult := some imgRGBA }

/-- Helper: `decodeAndEncode` reports the backends it was given. -/
theorem decodeAndEncode_backendsRun (env : CaptureEnv) (bs : List Backend)
    (format : String) (quality : Nat) :
    (decodeAndEncode env bs format quality).backendsRun = bs := by
  unfold decodeAndEncode
  cases env.decodeResult with
  | none => rfl
  | some img =>
    dsimp only
    split <;> rfl

/-- Helper: in `decodeAndEncode` the temporary file is removed exactly on
the success path. -/
theorem decodeAndEncode_tmp (env : CaptureEnv) (bs : List Backend)
    (format : String) (quality : Nat) :
    (decodeAndEncode env bs format quality).tmpFileAbsent =
      exceptIsOk (decodeAndEncode env bs format quality).result := by
  unfold decodeAndEncode
  cases env.decodeResult with
  | none => rfl
  | some img =>
    dsimp only
    split <;> rfl

/-- C1 (counterexample): on an X11 session whose captured file fails to
decode, `take_screenshot` raises (`CaptureError`) but the temporary file
is still present after the call — the claimed unconditional deletion does
not hold on the decode-failure path. -/
theorem tmp_leaked_on_decode_failure :
    (ScreenController.take_screenshot envDecodeFail "jpeg" 80).result =
      Except.error "decode failed" ∧
    (ScreenController.take_screenshot envDecodeFail "jpeg" 80).tmpFileAbsent = false :=
  ⟨rfl, rfl⟩

/-- C1 (amended): the temporary capture file is deleted exactly when the
whole capture succeeds; on every failing path — backend failure, decode
failure, re-encode failure — the file is left behind, because `os.unlink`
is only reached on the success path. -/
theorem tmp_deleted_iff_success (env : CaptureEnv) (format : String) (quality : Nat) :
    (ScreenController.take_screenshot env format quality).tmpFileAbsent =
      exceptIsOk (ScreenController.take_screenshot env format quality).result := by
  unfold ScreenController.take_screenshot
  by_cases hs : env.sessionType = "wayland"
  · rw [if_pos hs]
    exact decodeAndEncode_tmp ..
  · rw [if_neg hs]
    by_cases hr : env.scrotExit ≠ 0
    · rw [if_pos hr]
      rfl
    · rw [if_neg hr]
      exact decodeAndEncode_tmp ..

/-- C2: on a wayland session `grim` runs first and `gnome-screenshot` runs
exactly when grim exits non-zero; on any other session `scrot` runs alone
and a non-zero scrot exit fails the whole capture with no further
fallback. -/
theorem capture_backend_selection (env : CaptureEnv) (format : String) (quality : Nat) :
    (env.sessionType = "wayland" →
      (ScreenController.take_screenshot env format quality).backendsRun =
        if env.grimExit ≠ 0 then [Backend.grim, Backend.gnomeScreenshot]
        else [Backend.grim]) ∧
    (env.sessionType ≠ "wayland" →
      (ScreenController.take_screenshot env format quality).backendsRun = [Backend.scrot] ∧
      (env.scrotExit ≠ 0 →
        (ScreenController.take_screenshot env format quality).result =
          Except.error "scrot failed")) := by
  constructor
  · intro hs
    unfold ScreenController.take_screenshot
    rw [if_pos hs]
    exact decodeAndEncode_backendsRun ..
  · intro hs
    unfold ScreenController.take_screenshot
    rw [if_neg hs]
    by_cases hr : env.scrotExit ≠ 0
    · rw [if_pos hr]
      exact ⟨rfl, fun _ => rfl⟩
    · rw [if_neg hr]
      exact ⟨decodeAndEncode_backendsRun .., fun h => absurd h hr⟩

/-- C2 (witness): on a wayland session where grim exits 1, the backends
run are grim then gnome-screenshot. -/
theorem capture_backend_selection_inst :
    (ScreenController.take_screenshot envWaylandGrimFails "png" 80).backendsRun =
      [Backend.grim, Backend.gnomeScreenshot] := by
  have h := (capture_backend_selection envWaylandGrimFails "png" 80).1 rfl
  simpa [envWaylandGrimFails] using h

/-- C3 (counterexample): the class `GUIBridgeServer.start` instantiates is
the plain sequential `HTTPServer`, which does not give each inbound
request its own worker — refuting the claim that unrelated in-flight
requests are never serialized behind one another. -/
theorem bridge_not_per_request_worker :
    ¬ServerClass.perRequestWorker GUIBridgeServer.start_config.serverClass = true := by
  decide

/-- C3 (amended): the bridge server runs `serve_forever` of a plain
`HTTPServer` on a single background daemon thread, so requests are
handled one at a time — an in-flight request serializes the others behind
it. -/
theorem bridge_server_serializes_requests :
    GUIBridgeServer.start_config.serverClass = ServerClass.HTTPServer ∧
    ServerClass.perRequestWorker GUIBridgeServer.start_config.serverClass = false ∧
    GUIBridgeServer.start_config.daemonThread = true ∧
    GUIBridgeServer.start_config.host = "127.0.0.1" := by
  refine ⟨rfl, by decide, rfl, rfl⟩

/-- C4: the button dictionary maps left to 1, right to 3, middle to 2 and
every other button string — the empty string included — to 1, and a click
with an unknown button name is dispatched with the left index and
succeeds instead of being rejected. -/
theorem click_button_mapping (b : String) (x y : Int) (env : InputEnv)
    (hm : env.moveExit = 0) (hc : env.clickExit = 0) :
    buttonIndex (Json.str "left") = "1" ∧
    buttonIndex (Json.str "right") = "3" ∧
    buttonIndex (Json.str "middle") = "2" ∧
    buttonIndex (Json.str "") = "1" ∧
    (b ≠ "left" → b ≠ "right" → b ≠ "middle" → buttonIndex (Json.str b) = "1") ∧
    ScreenController.click env (Json.num x) (Json.num y) (Json.str b) =
      ([XdoCmd.mousemove x y, XdoCmd.click (buttonIndex (Json.str b))], true) := by
  refine ⟨rfl, rfl, rfl, rfl, ?_, ?_⟩
  · intro h1 h2 h3
    simp [buttonIndex, h1, h2, h3]
  · simp [ScreenController.click, pyHashable, pyInt, hm, hc]

/-- C4 (witness): the spec's own test, `{x:5, y:5, button:"nonsense"}` —
the dispatched button equals the left-button index and the click
succeeds. -/
theorem click_button_mapping_inst :
    ScreenController.click ⟨0, 0⟩ (Json.num 5) (Json.num 5) (Json.str "nonsense") =
      ([XdoCmd.mousemove 5 5, XdoCmd.click "1"], true) := by
  have h := click_button_mapping "nonsense" 5 5 ⟨0, 0⟩ rfl rfl
  have hb := h.2.2.2.2.1 (by decide) (by decide) (by decide)
  rw [h.2.2.2.2.2, hb]

/-- C6: `double_click` issues exactly one pointer warp followed by a
single `click --repeat 2` on button 1, whereas two independent `click`
calls would warp twice. -/
theorem double_click_single_warp (env : InputEnv) (x y : Int)
    (hm : env.moveExit = 0) (hc : env.clickExit = 0) :
    ScreenController.double_click env (Json.num x) (Json.num y) =
      ([XdoCmd.mousemove x y, XdoCmd.clickRepeat 2 "1"], true) ∧
    (ScreenController.double_click env (Json.num x) (Json.num y)).1.countP isWarp = 1 ∧
    ((ScreenController.click env (Json.num x) (Json.num y) (Json.str "left")).1 ++
        (ScreenController.click env (Json.num x) (Json.num y) (Json.str "left")).1).countP
      isWarp = 2 := by
  have hd : ScreenController.double_click env (Json.num x) (Json.num y) =
      ([XdoCmd.mousemove x y, XdoCmd.clickRepeat 2 "1"], true) := by
    simp [ScreenController.double_click, pyInt, hm, hc]
  have hcl : ScreenController.click env (Json.num x) (Json.num y) (Json.str "left") =
      ([XdoCmd.mousemove x y, XdoCmd.click "1"], true) := by
    simp [ScreenController.click, pyHashable, pyInt, buttonIndex, hm, hc]
  refine ⟨hd, ?_, ?_⟩
  · rw [hd]
    simp [List.countP_cons, isWarp]
  · rw [hcl]
    simp [List.countP_cons, List.countP_append, isWarp]

/-- C6 (witness): `DoubleClick(3, 4)` with healthy backends produces one
warp and one repeat-2 click. -/
theorem double_click_single_warp_inst :
    ScreenController.double_click ⟨0, 0⟩ (Json.num 3) (Json.num 4) =
      ([XdoCmd.mousemove 3 4, XdoCmd.clickRepeat 2 "1"], true) :=
  (double_click_single_warp ⟨0, 0⟩ 3 4 rfl rfl).1

/-- Helper: when the temporary file decodes to an RGBA image, the jpeg
branch of `decodeAndEncode` converts it to RGB and encodes it at the
requested quality. -/
theorem decodeAndEncode_jpeg_rgba (env : CaptureEnv) (bs : List Backend)
    (q : Nat) (img : Image) (h1 : env.decodeResult = some img)
    (h2 : img.mode = ImageMode.RGBA) :
    (decodeAndEncode env bs "jpeg" q).result =
      Except.ok (Encoded.jpeg { img with mode := ImageMode.RGB } q) := by
  have hf : pyLower "jpeg" = "jpeg" := by decide
  unfold decodeAndEncode
  rw [h1]
  simp [hf, h2, saveJPEG]

/-- C5 (counterexample): a decoded image of PIL mode `LA` carries an alpha
channel, yet `take_screenshot(format='jpeg')` does not flatten it — only
mode `RGBA` is converted, so the JPEG encoder rejects the `LA` image and
the capture fails instead of returning a 3-channel JPEG. -/
theorem jpeg_alpha_la_encode_fails :
    imgLA.mode.hasAlpha = true ∧
    (ScreenController.take_screenshot envLA "jpeg" 80).result =
      Except.error "cannot write mode as JPEG" :=
  ⟨rfl, rfl⟩

/-- C5 (amended): when the decoded source image has PIL mode `RGBA`, the
jpeg re-encode flattens it to a 3-channel RGB image at the requested
quality; alpha-carrying modes other than `RGBA` (such as `LA`) are not
converted and fail the encode. -/
theorem jpeg_rgba_flattened (env : CaptureEnv) (img : Image) (q : Nat)
    (h1 : env.decodeResult = some img) (h2 : img.mode = ImageMode.RGBA)
    (h3 : env.scrotExit = 0) :
    (ScreenController.take_screenshot env "jpeg" q).result =
      Except.ok (Encoded.jpeg { img with mode := ImageMode.RGB } q) ∧
    (Encoded.jpeg { img with mode := ImageMode.RGB } q).channels = 3 := by
  constructor
  · unfold ScreenController.take_screenshot
    by_cases hs : env.sessionType = "wayland"
    · rw [if_pos hs]
      exact decodeAndEncode_jpeg_rgba env _ q img h1 h2
    · rw [if_neg hs, if_neg (fun hcon => hcon h3)]
      exact decodeAndEncode_jpeg_rgba env _ q img h1 h2
  · simp [Encoded.channels, ImageMode.channels]

/-- C5 (witness): a wayland capture that decodes to a 100x100 RGBA image,
re-encoded as jpeg at quality 80, yields the RGB-flattened JPEG. -/
theorem jpeg_rgba_flattened_inst :
    (ScreenController.take_screenshot envWaylandGrimFails "jpeg" 80).result =
      Except.ok (Encoded.jpeg { mode := ImageMode.RGB, width := 100, height := 100 } 80) := by
  have h := jpeg_rgba_flattened envWaylandGrimFails imgRGBA 80 rfl rfl rfl
  simpa [imgRGBA] using h.1

/-- C7: a `POST /click` whose body is empty (`Content-Length` 0) or the
empty JSON object is answered 200 with a `success` field, dispatching a
click at the defaults `x=0, y=0, button='left'`; and in any JSON-object
body, absent `x`/`y` fields default to 0 instead of causing a
rejection. -/
theorem post_click_empty_body_defaults (env : InputEnv) (cl : Nat)
    (p : Option Json) (h : cl = 0 ∨ p = some (Json.obj [])) :
    (do_POST_click env cl p).1.status = 200 ∧
    (do_POST_click env cl p).1.body =
      Json.obj [("success",
        Json.bool (ScreenController.click env (Json.num 0) (Json.num 0) (Json.str "left")).2)] ∧
    (do_POST_click env cl p).2 =
      (ScreenController.click env (Json.num 0) (Json.num 0) (Json.str "left")).1 ∧
    (∀ fields : List (String × Json),
      List.lookup "x" fields = none → List.lookup "y" fields = none →
      (do_POST_click env 1 (some (Json.obj fields))).2 =
        (ScreenController.click env (Json.num 0) (Json.num 0)
          ((List.lookup "button" fields).getD (Json.str "left"))).1 ∧
      (do_POST_click env 1 (some (Json.obj fields))).1.status = 200) := by
  have hread : read_json cl p = Except.ok (Json.obj []) := by
    rcases h with h | h
    · simp [read_json, h]
    · subst h
      by_cases hcl : cl ≠ 0 <;> simp [read_json, hcl]
  have hpost : do_POST_click env cl p =
      (⟨200, Json.obj [("success",
          Json.bool (ScreenController.click env (Json.num 0) (Json.num 0) (Json.str "left")).2)]⟩,
        (ScreenController.click env (Json.num 0) (Json.num 0) (Json.str "left")).1) := by
    simp [do_POST_click, hread, List.lookup]
  refine ⟨by rw [hpost], by rw [hpost], by rw [hpost], ?_⟩
  intro fields hx hy
  constructor <;> simp [do_POST_click, read_json, hx, hy]

/-- C7 (witness): a `POST /click` with `Content-Length` 0 and healthy
backends is answered 200. -/
theorem post_click_empty_body_defaults_inst :
    (do_POST_click ⟨0, 0⟩ 0 none).1.status = 200 :=
  (post_click_empty_body_defaults ⟨0, 0⟩ 0 none (Or.inl rfl)).1

/-- C8: a non-200 health response and a connection failure leave the same
disconnected status (`self.connected = False`), and every poll outcome —
exception included — returns `True` to GLib, so the poll never throws out
of the loop and the status is resolved within the poll call itself. -/
theorem update_status_disconnected_uniform (code : Nat) (hne : code ≠ 200) :
    (update_status (PollOutcome.response code)).1.connected = false ∧
    (update_status PollOutcome.connectionFailure).1.connected = false ∧
    (update_status (PollOutcome.response code)).1.connected =
      (update_status PollOutcome.connectionFailure).1.connected ∧
    (∀ o : PollOutcome, (update_status o).2 = true) := by
  have h1 : (update_status (PollOutcome.response code)).1.connected = false := by
    simp [update_status, hne]
  refine ⟨h1, rfl, by rw [h1]; rfl, ?_⟩
  intro o
  cases o with
  | response c =>
    by_cases hc : c = 200 <;> simp [update_status, hc]
  | connectionFailure => rfl

/-- C8 (witness): a 500 health response resolves to disconnected. -/
theorem update_status_disconnected_uniform_inst :
    (update_status (PollOutcome.response 500)).1.connected = false :=
  (update_status_disconnected_uniform 500 (by decide)).1

/-- C9: with the requested format png, the quality parameter has no
effect — the whole observable capture outcome, returned bytes included,
is identical for any two quality values. -/
theorem png_ignores_quality (env : CaptureEnv) (q1 q2 : Nat) :
    ScreenController.take_screenshot env "png" q1 =
      ScreenController.take_screenshot env "png" q2 := by
  have h : ¬pyLower "png" = "jpeg" := by decide
  unfold ScreenController.take_screenshot decodeAndEncode
  simp [h]

/-- C10: `GET /mouse/position` always answers 200 with `success: true`;
when the backend query fails the swallowed error yields coordinates
(0, 0), a response identical to the one for a pointer genuinely at the
origin. -/
theorem mouse_position_never_500 :
    (∀ q : XdoQuery, (do_GET_mouse_position q).status = 200) ∧
    do_GET_mouse_position XdoQuery.failure =
      ⟨200, Json.obj [("success", Json.bool true),
        ("x", Json.num 0), ("y", Json.num 0)]⟩ ∧
    do_GET_mouse_position XdoQuery.failure =
      do_GET_mouse_position (XdoQuery.ok "x:0 y:0 screen:0 window:1") := by
  refine ⟨?_, rfl, rfl⟩
  intro q
  cases q <;> rfl
